import Mathlib

/-!
Verification of the ColorMind color-analysis and palette-generation pipeline.

The Python sources (`color_processor.py`, `palette_generator.py`) are embedded
shallowly: Python float arithmetic is modelled by exact rationals (`ℚ`),
Python `int()` truncation by `pyInt`, Python `%` on numbers by `pyMod`, and
the `colorsys` standard-library conversions by direct transcriptions of their
reference implementations.  Python dicts carrying fixed keys become
structures; `dict.get` with a default becomes an association-list lookup with
a default.  The two identical copies of the RGB→HSL/CMYK/hex converters (one
in each Python class) are embedded once.
-/

namespace ColorMind

/-- Python `int()` on a rational: truncation toward zero. -/
def pyInt (q : ℚ) : ℤ := if 0 ≤ q then ⌊q⌋ else ⌈q⌉

/-- Python `%` on numbers: remainder with the sign of the divisor
(`a % b = a - b * floor (a / b)` for `b ≠ 0`). -/
def pyMod (a b : ℚ) : ℚ := a - b * ⌊a / b⌋

/-- An RGB triple as produced by the code: integer channels (the code never
clamps, so channels are modelled as unbounded integers). -/
structure RGBInt where
  r : ℤ
  g : ℤ
  b : ℤ
deriving DecidableEq

/-- Result triple of `colorsys.rgb_to_hls`, in the (h, l, s) order Python
returns it. -/
structure HLS where
  h : ℚ
  l : ℚ
  s : ℚ
deriving DecidableEq

/-- Result triple of `colorsys.hls_to_rgb`: fractional channels. -/
structure RGBq where
  r : ℚ
  g : ℚ
  b : ℚ
deriving DecidableEq

/-- The integer HSL dictionary produced by `_rgb_to_hsl`. -/
structure HSLInt where
  h : ℤ
  s : ℤ
  l : ℤ
deriving DecidableEq

/-- The integer CMYK dictionary produced by `_rgb_to_cmyk`. -/
structure CMYKInt where
  c : ℤ
  m : ℤ
  y : ℤ
  k : ℤ
deriving DecidableEq

/-- `colorsys.rgb_to_hls` (CPython reference implementation), over exact
rationals.  Returns `(h, l, s)`. -/
def rgb_to_hls (r g b : ℚ) : HLS :=
  let maxc := max (max r g) b
  let minc := min (min r g) b
  let sumc := maxc + minc
  let rangec := maxc - minc
  let l := sumc / 2
  if minc = maxc then ⟨0, l, 0⟩
  else
    let s := if l ≤ 1/2 then rangec / sumc else rangec / (2 - sumc)
    let rc := (maxc - r) / rangec
    let gc := (maxc - g) / rangec
    let bc := (maxc - b) / rangec
    let h := if r = maxc then bc - gc
             else if g = maxc then 2 + rc - bc
             else 4 + gc - rc
    ⟨pyMod (h / 6) 1, l, s⟩

/-- `colorsys._v` helper for `hls_to_rgb`. -/
def hlsV (m1 m2 hue : ℚ) : ℚ :=
  let hue := pyMod hue 1
  if hue < 1/6 then m1 + (m2 - m1) * hue * 6
  else if hue < 1/2 then m2
  else if hue < 2/3 then m1 + (m2 - m1) * (2/3 - hue) * 6
  else m1

/-- `colorsys.hls_to_rgb` (CPython reference implementation). -/
def hls_to_rgb (h l s : ℚ) : RGBq :=
  if s = 0 then ⟨l, l, l⟩
  else
    let m2 := if l ≤ 1/2 then l * (1 + s) else l + s - l * s
    let m1 := 2 * l - m2
    ⟨hlsV m1 m2 (h + 1/3), hlsV m1 m2 h, hlsV m1 m2 (h - 1/3)⟩

/-- `_rgb_to_hsl`: RGB to the integer-valued HSL dictionary
(hue in truncated degrees, saturation/lightness in truncated percent). -/
def rgbToHsl (c : RGBInt) : HSLInt :=
  let hls := rgb_to_hls ((c.r : ℚ) / 255) ((c.g : ℚ) / 255) ((c.b : ℚ) / 255)
  ⟨pyInt (hls.h * 360), pyInt (hls.s * 100), pyInt (hls.l * 100)⟩

/-- `_hsl_to_rgb`: hue in degrees, saturation/lightness as fractions;
channels truncated to integers and not clamped. -/
def hslToRgb (h s l : ℚ) : RGBInt :=
  let hNorm := h / 360
  let rgb := hls_to_rgb hNorm l s
  ⟨pyInt (rgb.r * 255), pyInt (rgb.g * 255), pyInt (rgb.b * 255)⟩

/-- The spec's round trip: RGB to the integer HSL dictionary and back
(`hslToRgb` fed with the dictionary's degrees and percent-fractions). -/
def roundTrip (c : RGBInt) : RGBInt :=
  let hsl := rgbToHsl c
  hslToRgb (hsl.h : ℚ) ((hsl.s : ℚ) / 100) ((hsl.l : ℚ) / 100)

/-- `_rgb_to_cmyk`. -/
def rgbToCmyk (c : RGBInt) : CMYKInt :=
  let r := (c.r : ℚ) / 255
  let g := (c.g : ℚ) / 255
  let b := (c.b : ℚ) / 255
  let k := 1 - max (max r g) b
  if k = 1 then ⟨0, 0, 0, 100⟩
  else
    ⟨pyInt ((1 - r - k) / (1 - k) * 100),
     pyInt ((1 - g - k) / (1 - k) * 100),
     pyInt ((1 - b - k) / (1 - k) * 100),
     pyInt (k * 100)⟩

/-- Lowercase hex digits of a natural number, as Python `'%x'` renders it. -/
def hexDigitsOf (n : ℕ) : String := String.mk (Nat.toDigits 16 n)

/-- Python `'\x7b:02x\x7d'.format(n)`: lowercase hex, zero-padded to width 2. -/
def format02x (n : ℤ) : String :=
  if n < 0 then "-" ++ hexDigitsOf n.natAbs
  else
    let s := hexDigitsOf n.toNat
    if s.length < 2 then "0" ++ s else s

/-- `_rgb_to_hex`. -/
def rgbToHex (c : RGBInt) : String :=
  "#" ++ format02x c.r ++ format02x c.g ++ format02x c.b

/-- `_generate_harmony_colors`: hue in degrees, saturation/lightness as
fractions; the five named schemes each build five colors, anything else
leaves the initial empty list. -/
def generateHarmonyColors (h s l : ℚ) (harmonyType : String) : List RGBInt :=
  if harmonyType = "complementary" then
    [hslToRgb h s l,
     hslToRgb (pyMod (h + 180) 360) (s * 0.8) l,
     hslToRgb h (s * 0.3) (l + 0.2),
     hslToRgb (pyMod (h + 180) 360) (s * 0.3) (l + 0.2),
     hslToRgb h (s * 0.1) (l + 0.3)]
  else if harmonyType = "analogous" then
    [hslToRgb h s l,
     hslToRgb (pyMod (h + 30) 360) (s * 0.9) l,
     hslToRgb (pyMod (h - 30) 360) (s * 0.9) l,
     hslToRgb (pyMod (h + 60) 360) (s * 0.7) (l + 0.1),
     hslToRgb (pyMod (h - 60) 360) (s * 0.7) (l + 0.1)]
  else if harmonyType = "triadic" then
    [hslToRgb h s l,
     hslToRgb (pyMod (h + 120) 360) (s * 0.8) l,
     hslToRgb (pyMod (h + 240) 360) (s * 0.8) l,
     hslToRgb h (s * 0.3) (l + 0.2),
     hslToRgb (pyMod (h + 120) 360) (s * 0.3) (l + 0.2)]
  else if harmonyType = "tetradic" then
    [hslToRgb h s l,
     hslToRgb (pyMod (h + 90) 360) (s * 0.9) l,
     hslToRgb (pyMod (h + 180) 360) (s * 0.8) l,
     hslToRgb (pyMod (h + 270) 360) (s * 0.9) l,
     hslToRgb h (s * 0.2) (l + 0.3)]
  else if harmonyType = "monochromatic" then
    [hslToRgb h s l,
     hslToRgb h (s * 0.8) (l + 0.1),
     hslToRgb h (s * 0.6) (l + 0.2),
     hslToRgb h (s * 0.4) (l + 0.3),
     hslToRgb h (s * 0.2) (l + 0.4)]
  else []

/-- One entry of `self.style_rules`. -/
structure StyleRule where
  saturationRange : ℚ × ℚ
  lightnessRange : ℚ × ℚ
  preferredHues : List ℚ
  temperature : String
deriving DecidableEq

/-- The `'scandinavian'` entry, which is also the `.get` default. -/
def scandinavianRule : StyleRule :=
  ⟨(0.1, 0.4), (0.75, 0.95), [0, 200, 220, 240], "cool"⟩

/-- `self.style_rules`. -/
def styleRules : List (String × StyleRule) :=
  [("japandi", ⟨(0.05, 0.25), (0.7, 0.95), [30, 45, 60, 200, 220], "warm"⟩),
   ("scandinavian", scandinavianRule),
   ("minimalist", ⟨(0.0, 0.15), (0.2, 0.95), [0, 60, 120, 180, 240, 300], "neutral"⟩),
   ("industrial", ⟨(0.1, 0.5), (0.2, 0.7), [0, 30, 200, 220, 240], "cool"⟩),
   ("mediterranean", ⟨(0.3, 0.8), (0.4, 0.8), [20, 40, 60, 180, 200, 220, 240], "warm"⟩)]

/-- `self.style_rules.get(style, self.style_rules['scandinavian'])`. -/
def styleRuleGet (style : String) : StyleRule :=
  (styleRules.lookup style).getD scandinavianRule

/-- One entry of `self.mood_adjustments`. -/
structure MoodAdjustment where
  saturation : ℚ
  lightness : ℚ
deriving DecidableEq

/-- `self.mood_adjustments`. -/
def moodAdjustments : List (String × MoodAdjustment) :=
  [("calm", ⟨-0.2, 0.1⟩), ("cozy", ⟨0.1, -0.1⟩),
   ("luxury", ⟨0.2, -0.2⟩), ("energetic", ⟨0.3, 0⟩)]

/-- `self.mood_adjustments.get(mood, ...zero deltas...)`. -/
def moodGet (mood : String) : MoodAdjustment :=
  (moodAdjustments.lookup mood).getD ⟨0, 0⟩

/-- One entry of `self.lighting_adjustments`. -/
structure LightingAdjustment where
  temperature : ℚ
  brightness : ℚ
deriving DecidableEq

/-- `self.lighting_adjustments`. -/
def lightingAdjustments : List (String × LightingAdjustment) :=
  [("daylight", ⟨0, 0⟩), ("warm_light", ⟨0.1, -0.05⟩), ("cool_led", ⟨-0.1, 0.05⟩)]

/-- `self.lighting_adjustments.get(lighting, ...zero deltas...)`. -/
def lightingGet (lighting : String) : LightingAdjustment :=
  (lightingAdjustments.lookup lighting).getD ⟨0, 0⟩

/-- One entry of the dominant-color list built by `extract_dominant_colors`
(the pipeline reads only its `rgb` and `hsl` fields). -/
structure DominantColor where
  rgb : RGBInt
  hex : String
  hsl : HSLInt
  cmyk : CMYKInt
  frequency : ℚ
  rank : ℤ
deriving DecidableEq

/-- `_select_style_colors`: the Python `for`/`append` loop over the dominant
colors, then the empty-fallback to the top three. -/
def selectStyleColors (dominantColors : List DominantColor) (style : String) :
    List RGBInt :=
  let styleRule := styleRuleGet style
  let selectedColors := dominantColors.foldl
    (fun acc colorInfo =>
      let saturation := (colorInfo.hsl.s : ℚ) / 100
      let lightness := (colorInfo.hsl.l : ℚ) / 100
      if styleRule.saturationRange.1 ≤ saturation ∧
          saturation ≤ styleRule.saturationRange.2 ∧
          styleRule.lightnessRange.1 ≤ lightness ∧
          lightness ≤ styleRule.lightnessRange.2 then
        acc ++ [colorInfo.rgb]
      else acc) []
  if selectedColors = [] then (dominantColors.take 3).map (fun ci => ci.rgb)
  else selectedColors

/-- `_apply_style_mood_lighting` (the `style` argument is accepted but unused
by the Python body). -/
def applyStyleMoodLighting (colors : List RGBInt)
    (style mood lighting : String) : List RGBInt :=
  let moodAdj := moodGet mood
  let lightingAdj := lightingGet lighting
  colors.map (fun rgb =>
    let hls := rgb_to_hls ((rgb.r : ℚ) / 255) ((rgb.g : ℚ) / 255) ((rgb.b : ℚ) / 255)
    let s := max 0 (min 1 (hls.s + moodAdj.saturation))
    let l := max 0 (min 1 (hls.l + moodAdj.lightness))
    let h := if 0 < lightingAdj.temperature then
               (if hls.h < 0.98 then hls.h + 0.02 else hls.h)
             else if lightingAdj.temperature < 0 then
               (if 0.02 < hls.h then hls.h - 0.02 else hls.h)
             else hls.h
    let l := max 0 (min 1 (l + lightingAdj.brightness))
    let rgbq := hls_to_rgb h l s
    ⟨pyInt (rgbq.r * 255), pyInt (rgbq.g * 255), pyInt (rgbq.b * 255)⟩)

/-- One palette entry as built by `_assign_color_roles`. -/
structure PaletteColor where
  rgb : RGBInt
  hex : String
  hsl : HSLInt
  cmyk : CMYKInt
  role : String
  locked : Bool
deriving DecidableEq

/-- The fixed role list of `_assign_color_roles`. -/
def roleNames : List String :=
  ["Primary", "Secondary", "Accent", "Neutral", "Background"]

/-- `_assign_color_roles`. -/
def assignColorRoles (colors : List RGBInt) : List PaletteColor :=
  colors.enum.map (fun p =>
    let role := if h : p.1 < roleNames.length then roleNames.get ⟨p.1, h⟩
                else "Color " ++ toString (p.1 + 1)
    { rgb := p.2, hex := rgbToHex p.2, hsl := rgbToHsl p.2,
      cmyk := rgbToCmyk p.2, role := role, locked := false })

/-- `adjust_for_lighting`: the standalone lighting re-adjustment, keeping
every field of each palette entry except `rgb` and `hex`. -/
def adjustForLighting (colors : List PaletteColor) (lightingType : String) :
    List PaletteColor :=
  let lightingAdj := lightingGet lightingType
  colors.map (fun color =>
    let rgb := color.rgb
    let hls := rgb_to_hls ((rgb.r : ℚ) / 255) ((rgb.g : ℚ) / 255) ((rgb.b : ℚ) / 255)
    let h := if 0 < lightingAdj.temperature then min 1 (hls.h + 0.02)
             else if lightingAdj.temperature < 0 then max 0 (hls.h - 0.02)
             else hls.h
    let l := max 0 (min 1 (hls.l + lightingAdj.brightness))
    let rgbq := hls_to_rgb h l hls.s
    let adjustedRgb : RGBInt :=
      ⟨pyInt (rgbq.r * 255), pyInt (rgbq.g * 255), pyInt (rgbq.b * 255)⟩
    { color with rgb := adjustedRgb, hex := rgbToHex adjustedRgb })

/-- `_filter_extreme_colors` with its default thresholds: per-pixel mean
brightness mask, kept only when at least 10% of the pixels survive. -/
def filterExtremeColors (pixels : List RGBInt)
    (darkThreshold : ℚ := 30) (lightThreshold : ℚ := 225) : List RGBInt :=
  let brightness := pixels.map (fun p => ((p.r : ℚ) + p.g + p.b) / 3)
  let mask := brightness.map (fun b =>
    decide (darkThreshold < b) && decide (b < lightThreshold))
  let filteredPixels := (pixels.zip mask).filterMap
    (fun pm => if pm.2 then some pm.1 else none)
  if (filteredPixels.length : ℚ) < (pixels.length : ℚ) * 0.1 then pixels
  else filteredPixels

/-- The record returned by `generate_palette`; the palette name and the
`created_at` timestamp come from the (impure) name generator and clock and
are threaded through as the `name`/`createdAt` arguments below. -/
structure Palette where
  name : String
  colors : List PaletteColor
  style : String
  mood : String
  lighting : String
  createdAt : String
deriving DecidableEq

/-- The record returned by `generate_harmony_palette`. -/
structure HarmonyPalette where
  name : String
  colors : List PaletteColor
  harmonyType : String
  style : String
  mood : String
  lighting : String
  createdAt : String
deriving DecidableEq

/-- `generate_palette`.  The random palette name and the timestamp are
modelled as the `name` and `ts` parameters; exceptions would propagate, hence
the `Except` result, but the body raises nothing itself. -/
def generatePalette (name ts : String) (dominantColors : List DominantColor)
    (style mood lighting : String) : Except String Palette :=
  let baseColors := selectStyleColors dominantColors style
  let harmonyPalette :=
    match baseColors with
    | [] => baseColors
    | primaryRgb :: _ =>
        let hls := rgb_to_hls ((primaryRgb.r : ℚ) / 255) ((primaryRgb.g : ℚ) / 255)
          ((primaryRgb.b : ℚ) / 255)
        generateHarmonyColors (hls.h * 360) hls.s hls.l "complementary"
  let adjustedPalette := applyStyleMoodLighting harmonyPalette style mood lighting
  let finalPalette := assignColorRoles adjustedPalette
  Except.ok ⟨name, finalPalette, style, mood, lighting, ts⟩

/-- `generate_harmony_palette`: raises `ValueError("No base colors provided")`
on an empty base-color list (base colors are taken as raw RGB triples, the
non-dict branch of the Python input handling). -/
def generateHarmonyPalette (name ts : String) (baseColors : List RGBInt)
    (harmonyType style mood lighting : String) : Except String HarmonyPalette :=
  match baseColors with
  | [] => Except.error "No base colors provided"
  | primaryRgb :: _ =>
      let hls := rgb_to_hls ((primaryRgb.r : ℚ) / 255) ((primaryRgb.g : ℚ) / 255)
        ((primaryRgb.b : ℚ) / 255)
      let harmonyColors := generateHarmonyColors (hls.h * 360) hls.s hls.l harmonyType
      let adjustedPalette := applyStyleMoodLighting harmonyColors style mood lighting
      let finalPalette := assignColorRoles adjustedPalette
      Except.ok ⟨name, finalPalette, harmonyType, style, mood, lighting, ts⟩

/-! ### Helper lemmas -/

/-- The append-accumulating selection loop of `_select_style_colors` is a
filter followed by a map. -/
lemma foldl_select_eq_filter_map {α β : Type} (p : α → Prop) [DecidablePred p]
    (f : α → β) (l : List α) (acc : List β) :
    l.foldl (fun a x => if p x then a ++ [f x] else a) acc =
      acc ++ (l.filter (fun x => decide (p x))).map f := by
  induction l generalizing acc with
  | nil => simp
  | cons a l ih =>
      by_cases h : p a <;>
        simp [List.filter_cons, h, ih, List.append_assoc]

/-- Selecting through a boolean mask computed from the list itself is a
filter. -/
lemma zip_mask_filterMap {α : Type} (p : α → Bool) (l : List α) :
    ((l.zip (l.map p)).filterMap fun pm => if pm.2 then some pm.1 else none) =
      l.filter p := by
  induction l with
  | nil => rfl
  | cons a l ih => cases hpa : p a <;> simp [List.filter_cons, hpa, ih]

/-- Indexing an `enumFrom`. -/
lemma enumFrom_getElem?_eq {α : Type} (l : List α) (k i : ℕ) :
    (List.enumFrom k l)[i]? = l[i]?.map (fun a => (k + i, a)) := by
  induction l generalizing k i with
  | nil => simp
  | cons a l ih =>
      cases i with
      | zero => simp
      | succ i =>
          simp only [List.enumFrom, List.getElem?_cons_succ, ih]
          cases l[i]? <;> simp <;> omega

/-- For channels in [0,1], the lightness computed by `rgb_to_hls` lies in
[0,1]. -/
lemma rgb_to_hls_l_mem (r g b : ℚ) (hr0 : 0 ≤ r) (hr1 : r ≤ 1) (hg0 : 0 ≤ g)
    (hg1 : g ≤ 1) (hb0 : 0 ≤ b) (hb1 : b ≤ 1) :
    0 ≤ (rgb_to_hls r g b).l ∧ (rgb_to_hls r g b).l ≤ 1 := by
  have hmax1 : max (max r g) b ≤ 1 := max_le (max_le hr1 hg1) hb1
  have hmax0 : 0 ≤ max (max r g) b :=
    le_trans hr0 (le_trans (le_max_left r g) (le_max_left _ b))
  have hmin0 : 0 ≤ min (min r g) b := le_min (le_min hr0 hg0) hb0
  have hminmax : min (min r g) b ≤ max (max r g) b :=
    le_trans (min_le_right _ _) (le_max_right _ _)
  unfold rgb_to_hls
  dsimp only
  split <;> dsimp only <;> constructor <;> linarith

/-- For channels in [0,1], the saturation computed by `rgb_to_hls` lies in
[0,1]. -/
lemma rgb_to_hls_s_mem (r g b : ℚ) (hr0 : 0 ≤ r) (hr1 : r ≤ 1) (hg0 : 0 ≤ g)
    (hg1 : g ≤ 1) (hb0 : 0 ≤ b) (hb1 : b ≤ 1) :
    0 ≤ (rgb_to_hls r g b).s ∧ (rgb_to_hls r g b).s ≤ 1 := by
  have hmax1 : max (max r g) b ≤ 1 := max_le (max_le hr1 hg1) hb1
  have hmin0 : 0 ≤ min (min r g) b := le_min (le_min hr0 hg0) hb0
  have hminmax : min (min r g) b ≤ max (max r g) b :=
    le_trans (min_le_right _ _) (le_max_right _ _)
  unfold rgb_to_hls
  dsimp only
  split
  · simp
  · rename_i hne
    have hlt : min (min r g) b < max (max r g) b := lt_of_le_of_ne hminmax hne
    dsimp only
    split
    · have hsum : 0 < max (max r g) b + min (min r g) b := by linarith
      constructor
      · exact div_nonneg (by linarith) (le_of_lt hsum)
      · rw [div_le_one hsum]
        linarith
    · have h2sum : 0 < 2 - (max (max r g) b + min (min r g) b) := by linarith
      constructor
      · exact div_nonneg (by linarith) (le_of_lt h2sum)
      · rw [div_le_one h2sum]
        linarith

/-- The normalized hue of an RGB triple, as both adjustment functions compute
it. -/
def hueOf (c : RGBInt) : ℚ :=
  (rgb_to_hls ((c.r : ℚ) / 255) ((c.g : ℚ) / 255) ((c.b : ℚ) / 255)).h

/-- Channels within the canonical [0,255] range. -/
def channelsInRange (c : RGBInt) : Prop :=
  0 ≤ c.r ∧ c.r ≤ 255 ∧ 0 ≤ c.g ∧ c.g ≤ 255 ∧ 0 ≤ c.b ∧ c.b ≤ 255

/-- The hue is away from the saturating 0/1 boundary in the direction the
lighting preset shifts it. -/
def hueInterior (lighting : String) (c : RGBInt) : Prop :=
  (0 < (lightingGet lighting).temperature → hueOf c < 0.98) ∧
  ((lightingGet lighting).temperature < 0 → 0.02 < hueOf c)

/-! ### Claim theorems -/

/-- C1: the RGB→HSL→RGB round trip through the integer HSL dictionary is NOT
within ±1 per channel: at (130,130,130) the truncation of lightness to a
whole percent (50 instead of 50.98) drives the result down to (127,127,127),
a deviation of 3 on every channel.  This evaluates the code at the failing
input of the claim's ±1 bound. -/
theorem c1_roundTrip_130_deviates_by_three :
    roundTrip ⟨130, 130, 130⟩ = ⟨127, 127, 127⟩ ∧
    ¬(130 - (roundTrip ⟨130, 130, 130⟩).r ≤ 1) := by
  have h : roundTrip ⟨130, 130, 130⟩ = ⟨127, 127, 127⟩ := by
    norm_num [roundTrip, rgbToHsl, hslToRgb, rgb_to_hls, hls_to_rgb, hlsV,
      pyInt, pyMod]
  refine ⟨h, ?_⟩
  rw [h]
  decide

/-- C2: the harmony generator does NOT clamp saturation/lightness before the
HSL→RGB conversion: seed (h = 0, s = 0, l = 0.9) under the complementary
scheme passes lightness 0.9 + 0.2 = 1.1 straight through, and the third color
comes out as (280, 280, 280) — channels outside [0,255].  This evaluates the
code at the failing input of the claim's clamping property. -/
theorem c2_harmony_unclamped_overflow :
    (generateHarmonyColors 0 0 (9/10) "complementary").get? 2 =
      some ⟨280, 280, 280⟩ ∧
    ¬(∀ c ∈ generateHarmonyColors 0 0 (9/10) "complementary",
        c.r ≤ 255 ∧ c.g ≤ 255 ∧ c.b ≤ 255) := by
  have h : generateHarmonyColors 0 0 (9/10) "complementary" =
      [⟨229, 229, 229⟩, ⟨229, 229, 229⟩, ⟨280, 280, 280⟩,
       ⟨280, 280, 280⟩, ⟨306, 306, 306⟩] := by
    norm_num [generateHarmonyColors, hslToRgb, hls_to_rgb, hlsV, pyInt, pyMod]
  rw [h]
  refine ⟨rfl, ?_⟩
  decide

/-- C4: for every seed and every scheme name, the harmony generator returns
exactly 5 colors for the five named schemes and the empty list for any other
scheme name. -/
theorem c4_harmony_scheme_count (h s l : ℚ) (t : String) :
    ((t = "complementary" ∨ t = "analogous" ∨ t = "triadic" ∨
        t = "tetradic" ∨ t = "monochromatic") →
      (generateHarmonyColors h s l t).length = 5) ∧
    (¬(t = "complementary" ∨ t = "analogous" ∨ t = "triadic" ∨
        t = "tetradic" ∨ t = "monochromatic") →
      generateHarmonyColors h s l t = []) := by
  constructor
  · rintro (rfl | rfl | rfl | rfl | rfl) <;> simp [generateHarmonyColors]
  · intro hn
    push_neg at hn
    obtain ⟨h1, h2, h3, h4, h5⟩ := hn
    simp [generateHarmonyColors, h1, h2, h3, h4, h5]

/-- Witness for C4 at a concrete seed, a known scheme and an unknown one. -/
theorem c4_harmony_scheme_count_witness :
    (generateHarmonyColors 0 1 (1/2) "complementary").length = 5 ∧
    generateHarmonyColors 0 1 (1/2) "art_deco" = [] :=
  ⟨(c4_harmony_scheme_count 0 1 (1/2) "complementary").1 (Or.inl rfl),
   (c4_harmony_scheme_count 0 1 (1/2) "art_deco").2 (by decide)⟩

/-- C5: the complementary scheme returns exactly the five HSL→RGB conversions
of (h,s,l); ((h+180) mod 360, 0.8s, l); (h, 0.3s, l+0.2);
((h+180) mod 360, 0.3s, l+0.2); (h, 0.1s, l+0.3), in that order. -/
theorem c5_complementary_layout (h s l : ℚ) :
    generateHarmonyColors h s l "complementary" =
      [hslToRgb h s l,
       hslToRgb (pyMod (h + 180) 360) (0.8 * s) l,
       hslToRgb h (0.3 * s) (l + 0.2),
       hslToRgb (pyMod (h + 180) 360) (0.3 * s) (l + 0.2),
       hslToRgb h (0.1 * s) (l + 0.3)] := by
  simp [generateHarmonyColors, mul_comm]

/-- C10: on an empty dominant-color list, `generate_palette` returns a
complete record (empty colors, generated name, echoed style/mood/lighting,
timestamp) without raising, while `generate_harmony_palette` rejects an empty
base-color list with its ValueError.  The random name and the clock timestamp
are the threaded `name`/`ts` parameters. -/
theorem c10_empty_inputs (name ts style mood lighting harmonyType : String) :
    generatePalette name ts [] style mood lighting =
      Except.ok ⟨name, [], style, mood, lighting, ts⟩ ∧
    generateHarmonyPalette name ts [] harmonyType style mood lighting =
      Except.error "No base colors provided" :=
  ⟨rfl, rfl⟩

/-- C7: the extreme-color filter keeps exactly the pixels whose mean channel
brightness lies strictly between 30 and 225, and falls back to the full
unfiltered pixel list when the kept pixels number fewer than 10% of the
original. -/
theorem c7_filter_extreme_characterisation (pixels : List RGBInt) :
    filterExtremeColors pixels =
      (let kept := pixels.filter (fun p =>
         decide (30 < ((p.r : ℚ) + (p.g : ℚ) + (p.b : ℚ)) / 3 ∧
           ((p.r : ℚ) + (p.g : ℚ) + (p.b : ℚ)) / 3 < 225))
       if (kept.length : ℚ) < (pixels.length : ℚ) * 0.1 then pixels
       else kept) := by
  unfold filterExtremeColors
  dsimp only
  rw [List.map_map, zip_mask_filterMap]
  simp [Bool.decide_and, Function.comp_def]

/-- C8: palette assembly keeps length and order, gives position i the role
Primary/Secondary/Accent/Neutral/Background for i = 0..4 and "Color (i+1)"
beyond, and leaves every entry unlocked. -/
theorem c8_assign_roles_positions (colors : List RGBInt) :
    (assignColorRoles colors).length = colors.length ∧
    ∀ i : ℕ,
      ((assignColorRoles colors)[i]?).map (fun e => e.role) =
        (colors[i]?).map (fun _ =>
          if i = 0 then "Primary" else if i = 1 then "Secondary"
          else if i = 2 then "Accent" else if i = 3 then "Neutral"
          else if i = 4 then "Background" else "Color " ++ toString (i + 1)) ∧
      ((assignColorRoles colors)[i]?).map (fun e => e.locked) =
        (colors[i]?).map (fun _ => false) ∧
      ((assignColorRoles colors)[i]?).map (fun e => e.rgb) = colors[i]? := by
  have hget : ∀ i : ℕ, (assignColorRoles colors)[i]? =
      (colors[i]?).map (fun rgb =>
        { rgb := rgb, hex := rgbToHex rgb, hsl := rgbToHsl rgb,
          cmyk := rgbToCmyk rgb,
          role := if h : i < roleNames.length then roleNames.get ⟨i, h⟩
                  else "Color " ++ toString (i + 1),
          locked := false }) := by
    intro i
    unfold assignColorRoles
    rw [show colors.enum = colors.enumFrom 0 from rfl, List.getElem?_map,
      enumFrom_getElem?_eq]
    cases colors[i]? <;> simp
  refine ⟨by simp [assignColorRoles], fun i => ?_⟩
  rw [hget i]
  cases colors[i]? with
  | none => simp
  | some a =>
      refine ⟨?_, by simp, by simp⟩
      rcases i with _ | _ | _ | _ | _ | i
      · simp [roleNames]
      · simp [roleNames]
      · simp [roleNames]
      · simp [roleNames]
        try rfl
      · simp [roleNames]
        try rfl
      · have h5 : ¬(i + 5 < roleNames.length) := by
          simp only [roleNames, List.length_cons, List.length_nil]
          omega
        have e0 : i + 5 ≠ 0 := by omega
        have e1 : i + 5 ≠ 1 := by omega
        have e2 : i + 5 ≠ 2 := by omega
        have e3 : i + 5 ≠ 3 := by omega
        have e4 : i + 5 ≠ 4 := by omega
        simp [h5, e0, e1, e2, e3, e4]

/-- C6: seed selection returns exactly the rgb values of the dominant colors
whose HSL saturation/lightness fractions lie inclusively within the style's
ranges, falls back to the first 3 ranked colors when none qualify, and an
unknown style name is evaluated under the scandinavian rules. -/
theorem c6_select_style_colors (dom : List DominantColor) (style : String) :
    (selectStyleColors dom style =
      (let rule := styleRuleGet style
       let qualified := dom.filter (fun ci =>
         decide (rule.saturationRange.1 ≤ (ci.hsl.s : ℚ) / 100 ∧
           (ci.hsl.s : ℚ) / 100 ≤ rule.saturationRange.2 ∧
           rule.lightnessRange.1 ≤ (ci.hsl.l : ℚ) / 100 ∧
           (ci.hsl.l : ℚ) / 100 ≤ rule.lightnessRange.2))
       if qualified = [] then (dom.take 3).map (fun ci => ci.rgb)
       else qualified.map (fun ci => ci.rgb))) ∧
    (¬(style = "japandi" ∨ style = "scandinavian" ∨ style = "minimalist" ∨
        style = "industrial" ∨ style = "mediterranean") →
      selectStyleColors dom style = selectStyleColors dom "scandinavian") := by
  constructor
  · unfold selectStyleColors
    dsimp only
    rw [foldl_select_eq_filter_map]
    simp [List.map_eq_nil_iff]
  · intro hn
    push_neg at hn
    obtain ⟨h1, h2, h3, h4, h5⟩ := hn
    have hlook : styleRules.lookup style = none := by
      simp [styleRules, List.lookup, beq_eq_false_iff_ne.mpr h1,
        beq_eq_false_iff_ne.mpr h2, beq_eq_false_iff_ne.mpr h3,
        beq_eq_false_iff_ne.mpr h4, beq_eq_false_iff_ne.mpr h5]
    have hsty : styleRuleGet style = scandinavianRule := by
      simp [styleRuleGet, hlook]
    have hsc : styleRuleGet "scandinavian" = scandinavianRule := rfl
    unfold selectStyleColors
    rw [hsty, hsc]

/-- Witness for C6: an unknown style name is judged by the scandinavian
ranges, at a concrete one-color dominant list. -/
theorem c6_select_style_colors_witness :
    selectStyleColors
        [{ rgb := ⟨200, 180, 160⟩, hex := "#c8b4a0", hsl := ⟨30, 20, 85⟩,
           cmyk := ⟨0, 10, 20, 21⟩, frequency := 1/2, rank := 1 }] "art_deco" =
      selectStyleColors
        [{ rgb := ⟨200, 180, 160⟩, hex := "#c8b4a0", hsl := ⟨30, 20, 85⟩,
           cmyk := ⟨0, 10, 20, 21⟩, frequency := 1/2, rank := 1 }]
        "scandinavian" :=
  (c6_select_style_colors
    [{ rgb := ⟨200, 180, 160⟩, hex := "#c8b4a0", hsl := ⟨30, 20, 85⟩,
       cmyk := ⟨0, 10, 20, 21⟩, frequency := 1/2, rank := 1 }] "art_deco").2
    (by decide)

/-- C9: `rgbToCmyk` special-cases pure black (max channel 0, i.e. k = 1) to
(0,0,0,100), returns (0,0,0,0) on white, and away from that case the divisor
1 - k is nonzero, so the division is guarded on every in-range triple. -/
theorem c9_rgbToCmyk_guarded (c : RGBInt)
    (hr0 : 0 ≤ c.r) (hr1 : c.r ≤ 255) (hg0 : 0 ≤ c.g) (hg1 : c.g ≤ 255)
    (hb0 : 0 ≤ c.b) (hb1 : c.b ≤ 255) :
    rgbToCmyk ⟨0, 0, 0⟩ = ⟨0, 0, 0, 100⟩ ∧
    rgbToCmyk ⟨255, 255, 255⟩ = ⟨0, 0, 0, 0⟩ ∧
    (max (max c.r c.g) c.b = 0 → rgbToCmyk c = ⟨0, 0, 0, 100⟩) ∧
    (max (max c.r c.g) c.b ≠ 0 →
      1 - (1 - max (max ((c.r : ℚ) / 255) ((c.g : ℚ) / 255)) ((c.b : ℚ) / 255))
        ≠ 0) := by
  obtain ⟨r, g, b⟩ := c
  dsimp only at *
  refine ⟨by norm_num [rgbToCmyk, pyInt], by norm_num [rgbToCmyk, pyInt],
    ?_, ?_⟩
  · intro hmax
    have hr : r = 0 := le_antisymm (by
      calc r ≤ max (max r g) b := le_trans (le_max_left r g) (le_max_left _ b)
        _ = 0 := hmax) hr0
    have hg : g = 0 := le_antisymm (by
      calc g ≤ max (max r g) b := le_trans (le_max_right r g) (le_max_left _ b)
        _ = 0 := hmax) hg0
    have hb : b = 0 := le_antisymm (by
      calc b ≤ max (max r g) b := le_max_right _ b
        _ = 0 := hmax) hb0
    subst hr hg hb
    norm_num [rgbToCmyk, pyInt]
  · intro hmax
    have hpos : (0 : ℤ) < max (max r g) b :=
      lt_of_le_of_ne (le_trans hr0 (le_trans (le_max_left r g) (le_max_left _ b)))
        (Ne.symm hmax)
    have hposq : (0 : ℚ) < max (max ((r : ℚ) / 255) ((g : ℚ) / 255)) ((b : ℚ) / 255) := by
      rcases lt_max_iff.mp hpos with hmg | hb'
      · rcases lt_max_iff.mp hmg with hr' | hg'
        · exact lt_of_lt_of_le (by positivity)
            (le_trans (le_max_left _ ((g : ℚ) / 255)) (le_max_left _ _))
        · exact lt_of_lt_of_le (by positivity)
            (le_trans (le_max_right ((r : ℚ) / 255) _) (le_max_left _ _))
      · exact lt_of_lt_of_le (by positivity) (le_max_right _ _)
    have hsimp :
        1 - (1 - max (max ((r : ℚ) / 255) ((g : ℚ) / 255)) ((b : ℚ) / 255)) =
          max (max ((r : ℚ) / 255) ((g : ℚ) / 255)) ((b : ℚ) / 255) := by
      ring
    rw [hsimp]
    exact ne_of_gt hposq

/-- Witness for C9 at the in-range triple (10,20,30): the white evaluation
and the nonzero divisor. -/
theorem c9_rgbToCmyk_guarded_witness :
    rgbToCmyk ⟨255, 255, 255⟩ = ⟨0, 0, 0, 0⟩ ∧
    1 - (1 - max (max (((10 : ℤ) : ℚ) / 255) (((20 : ℤ) : ℚ) / 255))
        (((30 : ℤ) : ℚ) / 255)) ≠ 0 := by
  have h := c9_rgbToCmyk_guarded ⟨10, 20, 30⟩ (by decide) (by decide)
    (by decide) (by decide) (by decide) (by decide)
  exact ⟨h.2.1, h.2.2.2 (by decide)⟩

set_option maxHeartbeats 1000000 in
/-- C3 counterexample: at rgb (255,0,9) — normalized hue 169/170 ≈ 0.994 —
under warm_light, the pipeline adjustment (zero-effect mood "neutral") leaves
the hue untouched and yields blue channel 8, while the standalone
`adjust_for_lighting` clamps the hue to 1 and yields blue channel 0: the two
exposed adjustments do not agree, and the standalone clamp is a wrap to hue
0, not a saturating no-op. -/
theorem c3_boundary_hue_counterexample :
    ¬((adjustForLighting
        [{ rgb := ⟨255, 0, 9⟩, hex := "#ff0009", hsl := rgbToHsl ⟨255, 0, 9⟩,
           cmyk := rgbToCmyk ⟨255, 0, 9⟩, role := "Primary", locked := false }]
        "warm_light").map (fun c => c.rgb) =
      applyStyleMoodLighting [⟨255, 0, 9⟩] "scandinavian" "neutral"
        "warm_light") := by
  have hlight : lightingGet "warm_light" = ⟨0.1, -0.05⟩ := rfl
  have hmoodn : moodGet "neutral" = ⟨0, 0⟩ := rfl
  have hm : pyMod (-(1/170)) 1 = 169/170 := by
    norm_num [pyMod, -Int.self_sub_floor]
  have hL : (adjustForLighting
        [{ rgb := ⟨255, 0, 9⟩, hex := "#ff0009", hsl := rgbToHsl ⟨255, 0, 9⟩,
           cmyk := rgbToCmyk ⟨255, 0, 9⟩, role := "Primary", locked := false }]
        "warm_light").map (fun c => c.rgb) = [⟨229, 0, 0⟩] := by
    simp only [adjustForLighting, hlight, List.map_cons, List.map_nil]
    norm_num [rgb_to_hls]
    rw [hm]
    norm_num [hls_to_rgb, hlsV, pyInt, pyMod, -Int.self_sub_floor]
  have hR : applyStyleMoodLighting [(⟨255, 0, 9⟩ : RGBInt)] "scandinavian"
      "neutral" "warm_light" = [⟨229, 0, 8⟩] := by
    simp only [applyStyleMoodLighting, hlight, hmoodn, List.map_cons,
      List.map_nil]
    norm_num [rgb_to_hls]
    rw [hm]
    norm_num [hls_to_rgb, hlsV, pyInt, pyMod, -Int.self_sub_floor]
  rw [hL, hR]
  decide

/-- C3 (amended): for palette colors with channels in [0,255] and any
zero-effect mood, the standalone `adjust_for_lighting` computes the same
adjusted RGB per color as the pipeline `_apply_style_mood_lighting` with the
same lighting, PROVIDED each color's normalized hue is below 0.98 when the
lighting warms (temperature > 0) and above 0.02 when it cools
(temperature < 0); at the saturating boundary the two differ (the pipeline
skips the shift, the standalone clamps the hue into the boundary). -/
theorem c3_adjust_for_lighting_agrees_on_interior_hues
    (colors : List PaletteColor) (style mood lighting : String)
    (hmood : moodGet mood = ⟨0, 0⟩)
    (hcols : ∀ c ∈ colors, channelsInRange c.rgb ∧ hueInterior lighting c.rgb) :
    (adjustForLighting colors lighting).map (fun c => c.rgb) =
      applyStyleMoodLighting (colors.map (fun c => c.rgb)) style mood
        lighting := by
  unfold adjustForLighting applyStyleMoodLighting
  rw [hmood]
  dsimp only
  rw [List.map_map, List.map_map]
  apply List.map_congr_left
  intro c hc
  obtain ⟨hin, hhue⟩ := hcols c hc
  obtain ⟨hr0, hr1, hg0, hg1, hb0, hb1⟩ := hin
  have hr'0 : (0 : ℚ) ≤ (c.rgb.r : ℚ) / 255 := by positivity
  have hr'1 : (c.rgb.r : ℚ) / 255 ≤ 1 := by
    rw [div_le_one (by norm_num)]
    exact_mod_cast hr1
  have hg'0 : (0 : ℚ) ≤ (c.rgb.g : ℚ) / 255 := by positivity
  have hg'1 : (c.rgb.g : ℚ) / 255 ≤ 1 := by
    rw [div_le_one (by norm_num)]
    exact_mod_cast hg1
  have hb'0 : (0 : ℚ) ≤ (c.rgb.b : ℚ) / 255 := by positivity
  have hb'1 : (c.rgb.b : ℚ) / 255 ≤ 1 := by
    rw [div_le_one (by norm_num)]
    exact_mod_cast hb1
  have hs := rgb_to_hls_s_mem _ _ _ hr'0 hr'1 hg'0 hg'1 hb'0 hb'1
  have hl := rgb_to_hls_l_mem _ _ _ hr'0 hr'1 hg'0 hg'1 hb'0 hb'1
  have hsfix :
      max 0 (min 1 ((rgb_to_hls ((c.rgb.r : ℚ) / 255) ((c.rgb.g : ℚ) / 255)
        ((c.rgb.b : ℚ) / 255)).s + 0)) =
      (rgb_to_hls ((c.rgb.r : ℚ) / 255) ((c.rgb.g : ℚ) / 255)
        ((c.rgb.b : ℚ) / 255)).s := by
    rw [add_zero, min_eq_right hs.2, max_eq_right hs.1]
  have hlfix :
      max 0 (min 1 ((rgb_to_hls ((c.rgb.r : ℚ) / 255) ((c.rgb.g : ℚ) / 255)
        ((c.rgb.b : ℚ) / 255)).l + 0)) =
      (rgb_to_hls ((c.rgb.r : ℚ) / 255) ((c.rgb.g : ℚ) / 255)
        ((c.rgb.b : ℚ) / 255)).l := by
    rw [add_zero, min_eq_right hl.2, max_eq_right hl.1]
  simp only [Function.comp_apply]
  rw [hsfix, hlfix]
  rcases lt_trichotomy ((lightingGet lighting).temperature) 0 with ht | ht | ht
  · have hcond : ¬(0 < (lightingGet lighting).temperature) :=
      not_lt.mpr (le_of_lt ht)
    have hh : (0.02 : ℚ) < hueOf c.rgb := hhue.2 ht
    have hh' : (0.02 : ℚ) < (rgb_to_hls ((c.rgb.r : ℚ) / 255)
        ((c.rgb.g : ℚ) / 255) ((c.rgb.b : ℚ) / 255)).h := hh
    rw [if_neg hcond, if_pos ht, if_neg hcond, if_pos ht, if_pos hh',
      max_eq_right (by linarith)]
  · rw [ht]
    norm_num
  · have hh : hueOf c.rgb < (0.98 : ℚ) := hhue.1 ht
    have hh' : (rgb_to_hls ((c.rgb.r : ℚ) / 255) ((c.rgb.g : ℚ) / 255)
        ((c.rgb.b : ℚ) / 255)).h < (0.98 : ℚ) := hh
    rw [if_pos ht, if_pos ht, if_pos hh', min_eq_right (by linarith)]

/-- Witness for the amended C3, at one concrete in-range color whose hue
7/12 is interior, under warm lighting and an unknown (hence zero-effect)
mood name. -/
theorem c3_adjust_for_lighting_agrees_witness :
    (adjustForLighting
        [{ rgb := ⟨10, 20, 30⟩, hex := "#0a141e", hsl := rgbToHsl ⟨10, 20, 30⟩,
           cmyk := rgbToCmyk ⟨10, 20, 30⟩, role := "Primary", locked := false }]
        "warm_light").map (fun c => c.rgb) =
      applyStyleMoodLighting [⟨10, 20, 30⟩] "scandinavian" "neutral"
        "warm_light" :=
  c3_adjust_for_lighting_agrees_on_interior_hues
    [{ rgb := ⟨10, 20, 30⟩, hex := "#0a141e", hsl := rgbToHsl ⟨10, 20, 30⟩,
       cmyk := rgbToCmyk ⟨10, 20, 30⟩, role := "Primary", locked := false }]
    "scandinavian" "neutral" "warm_light" rfl
    (by
      intro c hc
      rw [List.mem_singleton] at hc
      subst hc
      have hlight : lightingGet "warm_light" = ⟨0.1, -0.05⟩ := rfl
      constructor
      · norm_num [channelsInRange]
      · unfold hueInterior
        constructor
        · intro ht
          norm_num [hueOf, rgb_to_hls, pyMod]
        · intro ht
          rw [hlight] at ht
          norm_num at ht)

end ColorMind
